import Mathlib

/-!
Shallow embedding of the reconciliation engine of
`src/vscode-extension/src/views/racehubView.ts` (class `RaceHubViewProvider`).

External collaborators (REST transport, session store, workspace inspection,
build invocation, operator prompts) are modelled as oracle fields of an
environment record; each fallible call is an `Except String` value (the
`String` is the stringified error the TypeScript `catch` would observe).
Mutable fields of the provider object are threaded as an explicit
`EngineState`.  Each run additionally produces a trace of `Event`s recording
the external calls issued and the publications performed, so that claims
about "which calls were made" become statements about the trace.
-/

/-- `type ViewState = 'loggedOut' | 'needsWorkspace' | 'ready'` (line 24). -/
inductive ViewState where
  | loggedOut
  | needsWorkspace
  | ready
deriving DecidableEq, Repr

/-- `type ViewStateDetail = 'none' | 'notLoggedIn' | 'sessionExpired' |
'workspaceMissing' | 'noBinaries' | 'requestError'` (line 25). -/
inductive ViewStateDetail where
  | none
  | notLoggedIn
  | sessionExpired
  | workspaceMissing
  | noBinaries
  | requestError
deriving DecidableEq, Repr

/-- `LocalBinary` from `../workspace`: `{name, rootPath, sourcePath?}`
(spec section 6: workspace inspection). -/
structure LocalBinary where
  name : String
  rootPath : String
  sourcePath : Option String
deriving DecidableEq, Repr

/-- `ArtifactSummary` from `../types`: the remote artifact record
`{id, name, owner_username, is_public, owned_by_me}` (spec section 6). -/
structure ArtifactSummary where
  id : Nat
  name : String
  owner_username : String
  is_public : Bool
  owned_by_me : Bool
deriving DecidableEq, Repr

/-- Result of `fetchCapabilities`: `{auth_required: boolean}` (spec section 6). -/
structure Caps where
  auth_required : Bool
deriving DecidableEq, Repr

/-- The tree `Node` union type (lines 29-33). -/
inductive Node where
  | localRoot
  | remoteRoot
  | localBin (bin : LocalBinary)
  | remoteArtifact (artifact : ArtifactSummary)
  | message (msg : String)
deriving DecidableEq, Repr

/-- The upload request body `{name, note, target, elf_base64}` (lines 367-373). -/
structure UploadPayload where
  name : String
  note : Option String
  target : String
  elf_base64 : String
deriving DecidableEq, Repr

/-- The mutable fields of `RaceHubViewProvider` (lines 105-110). -/
structure EngineState where
  state : ViewState
  stateDetail : ViewStateDetail
  token : Option String
  workspaceRoot : Option String
  localBinaries : List LocalBinary
  artifacts : List ArtifactSummary
deriving Repr

/-- Field initializers of `RaceHubViewProvider` (lines 105-110). -/
def initialEngineState : EngineState :=
  { state := ViewState.loggedOut
    stateDetail := ViewStateDetail.notLoggedIn
    token := Option.none
    workspaceRoot := Option.none
    localBinaries := []
    artifacts := [] }

/-- Trace events: one per external call issued or publication performed.
Remote calls carry the outcome the transport returned, so a trace determines
which calls were merely issued and which succeeded. -/
inductive Event where
  | fetchCapabilities
  | readToken
  | hasCargoToml (root : String)
  | listLocalBinaries (root : String)
  | listArtifacts (tok : Option String)
  | clearToken
  | pushContext (s : ViewState) (d : ViewStateDetail)
  | fireChange
  | buildBinary (root : String) (name : String)
  | checkElf (path : String)
  | upload (payload : UploadPayload) (tok : Option String) (result : Except String Nat)
  | deleteCall (id : Nat) (tok : Option String) (result : Except String Unit)
  | setVisibility (id : Nat) (pub : Bool) (tok : Option String) (result : Except String Unit)
  | showInfo (msg : String)
  | showWarning (msg : String)
  | revealFileInOS (path : String)
  | refreshInvoked
deriving Repr

/-- Oracle record for one `refreshArtifacts` run: the values the external
collaborators would return, each fallible call as an `Except`. -/
structure RefreshEnv where
  getWorkspaceRoot : Option String
  fetchCapabilities : Except String Caps
  readToken : Except String (Option String)
  hasCargoToml : String → Except String Bool
  listLocalBinaries : String → Except String (List LocalBinary)
  listArtifacts : Option String → Except String (List ArtifactSummary)

/-- Outcome of a `refreshArtifacts` run: final engine state, trace, and the
message caught by the surrounding `try`/`catch` if some step threw
(`Option.none` when the happy path completed). The method itself always
returns normally. -/
structure RefreshOutcome where
  es : EngineState
  events : List Event
  caught : Option String
deriving Repr

/-- JavaScript falsiness of a `string | undefined` value:
`undefined` and the empty string are falsy. -/
def strFalsy : Option String → Bool
  | Option.none => true
  | Option.some s => s = ""

/-- `s.includes(pat)`: `pat` occurs as a substring of `s` (checked on the
character lists). -/
def strContains (s pat : String) : Bool :=
  (List.range (s.data.length + 1)).any (fun i => List.isPrefixOf pat.data (s.data.drop i))

/-- Lines 127-128 etc.: `await this.pushContext(); this.onDidChangeTreeDataEmitter.fire(undefined)`,
appended to the trace on every exit path. -/
def publishAndFire (s : EngineState) (evs : List Event) : List Event :=
  evs ++ [Event.pushContext s.state s.stateDetail, Event.fireChange]

/-- Legal (state, detail) combinations per the spec's ViewStatus data model:
loggedOut pairs with notLoggedIn/sessionExpired/requestError, needsWorkspace
with workspaceMissing/noBinaries, ready with none. -/
def legalCombo : ViewState → ViewStateDetail → Bool
  | ViewState.loggedOut, ViewStateDetail.notLoggedIn => true
  | ViewState.loggedOut, ViewStateDetail.sessionExpired => true
  | ViewState.loggedOut, ViewStateDetail.requestError => true
  | ViewState.needsWorkspace, ViewStateDetail.workspaceMissing => true
  | ViewState.needsWorkspace, ViewStateDetail.noBinaries => true
  | ViewState.ready, ViewStateDetail.none => true
  | _, _ => false

namespace RaceHubViewProvider

/-- Lines 135-156: the part of the `try` body after the authentication gate:
workspace check, local-binary enumeration, ready transition and artifact
fetch. An `Except.error` result carries the engine state and trace as they
were at the moment the step threw (object fields mutated so far persist). -/
def refreshAfterAuth (env : RefreshEnv) (s : EngineState) (evs : List Event) :
    Except (EngineState × List Event × String) (EngineState × List Event) :=
  match s.workspaceRoot with
  | Option.none =>
    let s2 := { s with state := ViewState.needsWorkspace,
                       stateDetail := ViewStateDetail.workspaceMissing }
    Except.ok (s2, publishAndFire s2 evs)
  | Option.some root =>
    if root = "" then
      let s2 := { s with state := ViewState.needsWorkspace,
                         stateDetail := ViewStateDetail.workspaceMissing }
      Except.ok (s2, publishAndFire s2 evs)
    else
      match env.hasCargoToml root with
      | Except.error m => Except.error (s, evs ++ [Event.hasCargoToml root], m)
      | Except.ok has =>
        let evs1 := evs ++ [Event.hasCargoToml root]
        if !has then
          let s2 := { s with state := ViewState.needsWorkspace,
                             stateDetail := ViewStateDetail.workspaceMissing }
          Except.ok (s2, publishAndFire s2 evs1)
        else
          match env.listLocalBinaries root with
          | Except.error m => Except.error (s, evs1 ++ [Event.listLocalBinaries root], m)
          | Except.ok bins =>
            let evs2 := evs1 ++ [Event.listLocalBinaries root]
            let s3 := { s with localBinaries := bins }
            if bins.length = 0 then
              let s4 := { s3 with state := ViewState.needsWorkspace,
                                  stateDetail := ViewStateDetail.noBinaries }
              Except.ok (s4, publishAndFire s4 evs2)
            else
              let s4 := { s3 with state := ViewState.ready,
                                  stateDetail := ViewStateDetail.none }
              match env.listArtifacts s4.token with
              | Except.error m =>
                Except.error (s4, evs2 ++ [Event.listArtifacts s4.token], m)
              | Except.ok arts =>
                let s5 := { s4 with artifacts := arts }
                Except.ok (s5, publishAndFire s5 (evs2 ++ [Event.listArtifacts s4.token]))

/-- Lines 120-156: the whole `try` body, starting with the capability probe
and the authentication gate. -/
def refreshTryBody (env : RefreshEnv) (s1 : EngineState) :
    Except (EngineState × List Event × String) (EngineState × List Event) :=
  match env.fetchCapabilities with
  | Except.error m => Except.error (s1, [Event.fetchCapabilities], m)
  | Except.ok caps =>
    let evs := [Event.fetchCapabilities]
    if caps.auth_required then
      match env.readToken with
      | Except.error m => Except.error (s1, evs ++ [Event.readToken], m)
      | Except.ok tok =>
        let s := { s1 with token := tok }
        let evs1 := evs ++ [Event.readToken]
        if strFalsy tok then
          let s2 := { s with state := ViewState.loggedOut,
                             stateDetail := ViewStateDetail.notLoggedIn }
          Except.ok (s2, publishAndFire s2 evs1)
        else
          refreshAfterAuth env s evs1
    else
      refreshAfterAuth env { s1 with token := Option.none } evs

/-- Lines 114-170: `refreshArtifacts`. Clears the snapshots, runs the `try`
body, and on a caught error classifies it by the `401` marker (line 159),
clearing the session and ending loggedOut/sessionExpired, or ending
loggedOut/requestError. Every path publishes and fires before returning. -/
def refreshArtifacts (env : RefreshEnv) (s0 : EngineState) : RefreshOutcome :=
  match refreshTryBody env { s0 with artifacts := [], stateDetail := ViewStateDetail.none,
                                     localBinaries := [], workspaceRoot := env.getWorkspaceRoot } with
  | Except.ok (s, evs) => { es := s, events := evs, caught := Option.none }
  | Except.error (s, evs, m) =>
    if strContains m "401" then
      let s2 := { s with state := ViewState.loggedOut,
                         stateDetail := ViewStateDetail.sessionExpired }
      { es := s2, events := publishAndFire s2 (evs ++ [Event.clearToken]),
        caught := Option.some m }
    else
      let s2 := { s with state := ViewState.loggedOut,
                         stateDetail := ViewStateDetail.requestError }
      { es := s2, events := publishAndFire s2 evs, caught := Option.some m }

end RaceHubViewProvider

/-- Modelled from the spec: `artifactOutputPath` lives in `../workspace`,
which is not part of the excerpt; spec section 6 says the output location is
a pure function of `(root, name)`. No claim depends on its exact shape. -/
def artifactOutputPath (root name : String) : String :=
  root ++ "/target/" ++ name

/-- Oracle record for one workflow run: the refresh oracles plus the build
invoker, filesystem checks, operator prompt responses and the mutating
registry endpoints. -/
structure WorkflowEnv where
  refreshEnv : RefreshEnv
  buildBinary : String → String → Except String Unit
  elfExists : String → Bool
  nameInput : String → Option String
  noteInput : Option String
  defaultArtifactTarget : String
  readFileBase64 : String → String
  uploadArtifact : UploadPayload → Option String → Except String Nat
  deleteArtifact : Nat → Option String → Except String Unit
  updateArtifactVisibility : Nat → Bool → Option String → Except String Unit
  quickPick : List LocalBinary → Option LocalBinary
  confirmDelete : Bool

/-- Outcome of a workflow method: final engine state, trace, and
`err = some m` when the method's promise rejected with message `m`. -/
structure WfResult where
  es : EngineState
  events : List Event
  err : Option String
deriving Repr

/-- Line 370: `note && note.trim().length > 0 ? note.trim() : null`. -/
def noteOrNull : Option String → Option String
  | Option.none => Option.none
  | Option.some s =>
    if s = "" then Option.none
    else if 0 < s.trim.length then Option.some s.trim else Option.none

namespace RaceHubViewProvider

/-- Lines 342-378: `uploadFromLocalBinary`. Builds, checks the output path,
prompts for name and note, uploads. Returns the trace plus the uploaded
artifact id, or `Option.none` when the name prompt was dismissed (the method
then returns without uploading). Does not mutate engine state. -/
def uploadFromLocalBinary (env : WorkflowEnv) (tok : Option String)
    (bin : LocalBinary) (defaultName : String) :
    Except (List Event × String) (List Event × Option Nat) :=
  match env.buildBinary bin.rootPath bin.name with
  | Except.error m => Except.error ([Event.buildBinary bin.rootPath bin.name], m)
  | Except.ok _ =>
    let elfPath := artifactOutputPath bin.rootPath bin.name
    let evs := [Event.buildBinary bin.rootPath bin.name, Event.checkElf elfPath]
    if !env.elfExists elfPath then
      Except.error (evs, "ELF not found after build: " ++ elfPath)
    else
      match env.nameInput defaultName with
      | Option.none => Except.ok (evs, Option.none)
      | Option.some name =>
        if name = "" then Except.ok (evs, Option.none)
        else
          let payload : UploadPayload :=
            { name := name
              note := noteOrNull env.noteInput
              target := env.defaultArtifactTarget
              elf_base64 := env.readFileBase64 elfPath }
          match env.uploadArtifact payload tok with
          | Except.error m =>
            Except.error (evs ++ [Event.upload payload tok (Except.error m)], m)
          | Except.ok id =>
            Except.ok
              (evs ++ [Event.upload payload tok (Except.ok id),
                       Event.showInfo ("Artifact uploaded: #" ++ toString id ++
                         " from " ++ bin.name)],
               Option.some id)

/-- Lines 380-389: `getCurrentLocalBinaries`. Re-derives the workspace; on a
valid workspace it overwrites `this.workspaceRoot` and `this.localBinaries`
and returns the fresh list, otherwise returns `[]` without mutation. -/
def getCurrentLocalBinaries (renv : RefreshEnv) (s : EngineState) :
    Except (EngineState × List Event × String) (EngineState × List LocalBinary × List Event) :=
  match renv.getWorkspaceRoot with
  | Option.none => Except.ok (s, [], [])
  | Option.some root =>
    if root = "" then Except.ok (s, [], [])
    else
      match renv.hasCargoToml root with
      | Except.error m => Except.error (s, [Event.hasCargoToml root], m)
      | Except.ok has =>
        if !has then Except.ok (s, [], [Event.hasCargoToml root])
        else
          match renv.listLocalBinaries root with
          | Except.error m =>
            Except.error (s, [Event.hasCargoToml root, Event.listLocalBinaries root], m)
          | Except.ok bins =>
            Except.ok ({ s with workspaceRoot := Option.some root, localBinaries := bins },
                       bins,
                       [Event.hasCargoToml root, Event.listLocalBinaries root])

/-- Lines 221-228: `buildBinaryItem`. Guarded on a `localBin` node; builds
and reports, no engine-state mutation and no refresh. -/
def buildBinaryItem (env : WorkflowEnv) (s : EngineState) (item : Option Node) : WfResult :=
  match item with
  | Option.some (Node.localBin bin) =>
    match env.buildBinary bin.rootPath bin.name with
    | Except.error m => { es := s, events := [Event.buildBinary bin.rootPath bin.name], err := Option.some m }
    | Except.ok _ =>
      { es := s
        events := [Event.buildBinary bin.rootPath bin.name,
                   Event.showInfo ("Built binary " ++ bin.name)]
        err := Option.none }
  | _ => { es := s, events := [], err := Option.none }

/-- Lines 230-242: `revealElfPath`. Guarded on a `localBin` node; throws a
"build first" error when the output file is absent, else delegates display. -/
def revealElfPath (env : WorkflowEnv) (s : EngineState) (item : Option Node) : WfResult :=
  match item with
  | Option.some (Node.localBin bin) =>
    let elfPath := artifactOutputPath bin.rootPath bin.name
    if !env.elfExists elfPath then
      { es := s, events := [Event.checkElf elfPath],
        err := Option.some ("ELF not found: " ++ elfPath ++ ". Build the binary first.") }
    else
      { es := s, events := [Event.checkElf elfPath, Event.revealFileInOS elfPath],
        err := Option.none }
  | _ => { es := s, events := [], err := Option.none }

/-- Lines 244-252: `buildAndUploadBinary`. Guarded on a `localBin` node;
runs `uploadFromLocalBinary` then `refreshArtifacts`. An exception from the
upload phase propagates, skipping the refresh. -/
def buildAndUploadBinary (env : WorkflowEnv) (s : EngineState) (item : Option Node) : WfResult :=
  match item with
  | Option.some (Node.localBin bin) =>
    match uploadFromLocalBinary env s.token bin bin.name with
    | Except.error (evs, m) => { es := s, events := evs, err := Option.some m }
    | Except.ok (evs, _) =>
      let r := refreshArtifacts env.refreshEnv s
      { es := r.es, events := evs ++ Event.refreshInvoked :: r.events, err := Option.none }
  | _ => { es := s, events := [], err := Option.none }

/-- Lines 254-295: `replaceArtifact`. Ownership precondition, fresh
local-binary list, operator pick, upload under the old artifact's name,
best-effort delete of the old artifact (failure reported as a warning, no
rollback), then refresh. -/
def replaceArtifact (env : WorkflowEnv) (s : EngineState) (item : Option Node) : WfResult :=
  match item with
  | Option.some (Node.remoteArtifact artifact) =>
    if !artifact.owned_by_me then
      { es := s, events := [], err := Option.some "You can only replace artifacts you own." }
    else
      match getCurrentLocalBinaries env.refreshEnv s with
      | Except.error (s1, evs, m) => { es := s1, events := evs, err := Option.some m }
      | Except.ok (s1, bins, evs) =>
        if bins.length = 0 then
          { es := s1, events := evs,
            err := Option.some "No local binaries available in the current bot workspace." }
        else
          match env.quickPick bins with
          | Option.none => { es := s1, events := evs, err := Option.none }
          | Option.some picked =>
            match uploadFromLocalBinary env s1.token picked artifact.name with
            | Except.error (evs2, m) =>
              { es := s1, events := evs ++ evs2, err := Option.some m }
            | Except.ok (evs2, _) =>
              let delEvs :=
                match env.deleteArtifact artifact.id s1.token with
                | Except.ok _ =>
                  [Event.deleteCall artifact.id s1.token (Except.ok ()),
                   Event.showInfo ("Replaced artifact " ++ artifact.name ++
                     " by uploading new build and deleting #" ++ toString artifact.id)]
                | Except.error m =>
                  [Event.deleteCall artifact.id s1.token (Except.error m),
                   Event.showWarning ("Uploaded replacement, but failed to delete old artifact #" ++
                     toString artifact.id ++ ": " ++ m)]
              let r := refreshArtifacts env.refreshEnv s1
              { es := r.es, events := evs ++ evs2 ++ delEvs ++ Event.refreshInvoked :: r.events,
                err := Option.none }
  | _ => { es := s, events := [], err := Option.none }

/-- Lines 297-321: `deleteArtifact` (the workflow method). Ownership
precondition, modal confirmation (non-affirmative response returns silently
with no call), remote delete, then refresh. -/
def deleteArtifactItem (env : WorkflowEnv) (s : EngineState) (item : Option Node) : WfResult :=
  match item with
  | Option.some (Node.remoteArtifact artifact) =>
    if !artifact.owned_by_me then
      { es := s, events := [], err := Option.some "You can only delete artifacts you own." }
    else if !env.confirmDelete then
      { es := s, events := [], err := Option.none }
    else
      match env.deleteArtifact artifact.id s.token with
      | Except.error m =>
        { es := s, events := [Event.deleteCall artifact.id s.token (Except.error m)],
          err := Option.some m }
      | Except.ok _ =>
        let r := refreshArtifacts env.refreshEnv s
        { es := r.es
          events := [Event.deleteCall artifact.id s.token (Except.ok ()),
                     Event.showInfo ("Deleted artifact " ++ artifact.name ++
                       " (#" ++ toString artifact.id ++ ")")] ++
                    Event.refreshInvoked :: r.events
          err := Option.none }
  | _ => { es := s, events := [], err := Option.none }

/-- Lines 323-340: `toggleVisibility`. Ownership precondition, inverse of
the current public flag sent to the registry, then refresh. -/
def toggleVisibility (env : WorkflowEnv) (s : EngineState) (item : Option Node) : WfResult :=
  match item with
  | Option.some (Node.remoteArtifact artifact) =>
    if !artifact.owned_by_me then
      { es := s, events := [],
        err := Option.some "You can only change visibility of artifacts you own." }
    else
      let nextPublic := !artifact.is_public
      match env.updateArtifactVisibility artifact.id nextPublic s.token with
      | Except.error m =>
        { es := s,
          events := [Event.setVisibility artifact.id nextPublic s.token (Except.error m)],
          err := Option.some m }
      | Except.ok _ =>
        let r := refreshArtifacts env.refreshEnv s
        { es := r.es
          events := [Event.setVisibility artifact.id nextPublic s.token (Except.ok ()),
                     Event.showInfo ("Artifact " ++ artifact.name ++ " visibility changed")] ++
                    Event.refreshInvoked :: r.events
          err := Option.none }
  | _ => { es := s, events := [], err := Option.none }

end RaceHubViewProvider

/-- Event classifiers used to state trace properties. A network (registry)
call: capability probe, artifact list, upload, delete, set-visibility. -/
def Event.isNetwork : Event → Bool
  | Event.fetchCapabilities => true
  | Event.listArtifacts _ => true
  | Event.upload _ _ _ => true
  | Event.deleteCall _ _ _ => true
  | Event.setVisibility _ _ _ _ => true
  | _ => false

/-- A remote mutation that was issued (regardless of outcome). -/
def Event.isMutationCall : Event → Bool
  | Event.upload _ _ _ => true
  | Event.deleteCall _ _ _ => true
  | Event.setVisibility _ _ _ _ => true
  | _ => false

/-- A remote mutation that the transport reported successful. -/
def Event.isMutationOk : Event → Bool
  | Event.upload _ _ (Except.ok _) => true
  | Event.deleteCall _ _ (Except.ok _) => true
  | Event.setVisibility _ _ _ (Except.ok _) => true
  | _ => false

def Event.isUploadCall : Event → Bool
  | Event.upload _ _ _ => true
  | _ => false

def Event.isDeleteOk : Event → Bool
  | Event.deleteCall _ _ (Except.ok _) => true
  | _ => false

def Event.isDeleteCall : Event → Bool
  | Event.deleteCall _ _ _ => true
  | _ => false

def Event.isClearToken : Event → Bool
  | Event.clearToken => true
  | _ => false

def Event.isRefreshInvoked : Event → Bool
  | Event.refreshInvoked => true
  | _ => false

def Event.isShowWarning : Event → Bool
  | Event.showWarning _ => true
  | _ => false

def Event.isListArtifacts : Event → Bool
  | Event.listArtifacts _ => true
  | _ => false

def Event.isWorkspaceInspection : Event → Bool
  | Event.hasCargoToml _ => true
  | Event.listLocalBinaries _ => true
  | _ => false

/-- Registry semantics of one successful remote mutation, used to relate a
workflow's trace to the artifact list a subsequent refresh observes: a
successful upload appends a fresh artifact owned by the operator, a
successful delete removes by id, a successful set-visibility rewrites the
public flag; failed calls and non-mutations leave the registry unchanged. -/
def applyEvent (me : String) (reg : List ArtifactSummary) : Event → List ArtifactSummary
  | Event.upload payload _ (Except.ok id) =>
    reg ++ [{ id := id, name := payload.name, owner_username := me,
              is_public := false, owned_by_me := true }]
  | Event.deleteCall id _ (Except.ok _) => reg.filter (fun a => a.id ≠ id)
  | Event.setVisibility id pub _ (Except.ok _) =>
    reg.map (fun a => if a.id = id then { a with is_public := pub } else a)
  | _ => reg

def applyEvents (me : String) (reg : List ArtifactSummary) (evs : List Event) :
    List ArtifactSummary :=
  evs.foldl (applyEvent me) reg


/-- A trace that ends by publishing the given status and firing the change
notification. -/
def endsWithPublish (evs : List Event) (st : ViewState) (d : ViewStateDetail) : Prop :=
  ∃ pre, evs = pre ++ [Event.pushContext st d, Event.fireChange]

theorem publishAndFire_ends (s : EngineState) (evs : List Event) :
    endsWithPublish (publishAndFire s evs) s.state s.stateDetail :=
  ⟨evs, rfl⟩

/-- Events that can appear in the trace of the `try` body of a refresh:
the five external lookups plus publishing. Notably `clearToken` is not among
them — the session is only cleared in the `catch` handler. -/
def Event.isTryKind : Event → Bool
  | Event.fetchCapabilities => true
  | Event.readToken => true
  | Event.hasCargoToml _ => true
  | Event.listLocalBinaries _ => true
  | Event.listArtifacts _ => true
  | Event.pushContext _ _ => true
  | Event.fireChange => true
  | _ => false

/-- Events that can appear anywhere in a refresh trace. -/
def Event.isRefreshKind (e : Event) : Bool :=
  Event.isTryKind e || Event.isClearToken e

theorem all_imp_all {p q : Event → Bool} (hpq : ∀ e, p e = true → q e = true) :
    ∀ l : List Event, l.all p = true → l.all q = true := by
  intro l hl
  rw [List.all_eq_true] at hl ⊢
  exact fun e he => hpq e (hl e he)

theorem all_imp_any_eq_false {p q : Event → Bool} (hpq : ∀ e, p e = true → q e = false) :
    ∀ l : List Event, l.all p = true → l.any q = false := by
  intro l hl
  rw [List.all_eq_true] at hl
  rw [← Bool.not_eq_true, List.any_eq_true]
  rintro ⟨e, he, hq⟩
  rw [hpq e (hl e he)] at hq
  exact Bool.false_ne_true hq

theorem all_imp_countP_eq_zero {p q : Event → Bool} (hpq : ∀ e, p e = true → q e = false) :
    ∀ l : List Event, l.all p = true → l.countP q = 0 := by
  intro l
  induction l with
  | nil => intro _; rfl
  | cons a t ih =>
    intro hl
    rw [List.all_cons, Bool.and_eq_true] at hl
    simp [List.countP_cons, hpq a hl.1, ih hl.2]

/-- Whether both result traces of a try-body computation consist only of
try-kind events. -/
def tracesAllTry :
    Except (EngineState × List Event × String) (EngineState × List Event) → Bool
  | Except.ok (_, e) => e.all Event.isTryKind
  | Except.error (_, e, _) => e.all Event.isTryKind

theorem refreshAfterAuth_tryKind (env : RefreshEnv) (s : EngineState) (evs : List Event)
    (hevs : evs.all Event.isTryKind = true) :
    tracesAllTry (RaceHubViewProvider.refreshAfterAuth env s evs) = true := by
  unfold RaceHubViewProvider.refreshAfterAuth
  rcases hws : s.workspaceRoot with _ | root
  all_goals simp only [hws]
  · simp [tracesAllTry, publishAndFire, List.all_append, hevs, Event.isTryKind]
  · split
    · simp [tracesAllTry, publishAndFire, List.all_append, hevs, Event.isTryKind]
    · rcases hct : env.hasCargoToml root with m | has
      all_goals simp only [hct]
      · simp [tracesAllTry, List.all_append, hevs, Event.isTryKind]
      · split
        · simp [tracesAllTry, publishAndFire, List.all_append, hevs, Event.isTryKind]
        · rcases hlb : env.listLocalBinaries root with m | bins
          all_goals simp only [hlb]
          · simp [tracesAllTry, List.all_append, hevs, Event.isTryKind]
          · split
            · simp [tracesAllTry, publishAndFire, List.all_append, hevs, Event.isTryKind]
            · rcases hla : env.listArtifacts s.token with m | arts
              all_goals simp only [hla]
              · simp [tracesAllTry, List.all_append, hevs, Event.isTryKind]
              · simp [tracesAllTry, publishAndFire, List.all_append, hevs, Event.isTryKind]

theorem refreshTryBody_tryKind (env : RefreshEnv) (s1 : EngineState) :
    tracesAllTry (RaceHubViewProvider.refreshTryBody env s1) = true := by
  unfold RaceHubViewProvider.refreshTryBody
  rcases hc : env.fetchCapabilities with m | caps
  all_goals simp only [hc]
  · simp [tracesAllTry, Event.isTryKind]
  · split
    · rcases ht : env.readToken with m | tok
      all_goals simp only [ht]
      · simp [tracesAllTry, Event.isTryKind]
      · split
        · simp [tracesAllTry, publishAndFire, List.all_append, Event.isTryKind]
        · exact refreshAfterAuth_tryKind _ _ _ (by simp [Event.isTryKind])
    · exact refreshAfterAuth_tryKind _ _ _ (by simp [Event.isTryKind])

/-- Every event of a refresh trace is of refresh kind (an external lookup,
a publication, or the catch handler's session clearing). -/
theorem refresh_events_refreshKind (env : RefreshEnv) (s0 : EngineState) :
    (RaceHubViewProvider.refreshArtifacts env s0).events.all Event.isRefreshKind = true := by
  unfold RaceHubViewProvider.refreshArtifacts
  split
  · rename_i s evs heq
    have h := refreshTryBody_tryKind env
      { s0 with artifacts := [], stateDetail := ViewStateDetail.none,
                localBinaries := [], workspaceRoot := env.getWorkspaceRoot }
    rw [heq] at h
    exact all_imp_all (fun e he => by simp [Event.isRefreshKind, he]) _ h
  · rename_i s evs m heq
    have h := refreshTryBody_tryKind env
      { s0 with artifacts := [], stateDetail := ViewStateDetail.none,
                localBinaries := [], workspaceRoot := env.getWorkspaceRoot }
    rw [heq] at h
    simp only [tracesAllTry] at h
    have h' : evs.all Event.isRefreshKind = true :=
      all_imp_all (fun e he => by simp [Event.isRefreshKind, he]) _ h
    split
    all_goals
      simp [publishAndFire, List.all_append, h', Event.isRefreshKind,
        Event.isTryKind, Event.isClearToken]

theorem refreshAfterAuth_ok_spec (env : RefreshEnv) (s : EngineState) (evs : List Event)
    (s' : EngineState) (evs' : List Event)
    (h : RaceHubViewProvider.refreshAfterAuth env s evs = Except.ok (s', evs')) :
    legalCombo s'.state s'.stateDetail = true ∧
      endsWithPublish evs' s'.state s'.stateDetail := by
  unfold RaceHubViewProvider.refreshAfterAuth at h
  rcases hws : s.workspaceRoot with _ | root
  all_goals simp only [hws] at h
  · simp only [Except.ok.injEq, Prod.mk.injEq] at h
    obtain ⟨h1, h2⟩ := h
    subst h1
    subst h2
    exact ⟨rfl, publishAndFire_ends _ _⟩
  · split at h
    · simp only [Except.ok.injEq, Prod.mk.injEq] at h
      obtain ⟨h1, h2⟩ := h
      subst h1
      subst h2
      exact ⟨rfl, publishAndFire_ends _ _⟩
    · rcases hct : env.hasCargoToml root with m | has
      all_goals simp only [hct] at h
      · exact Except.noConfusion h
      · split at h
        · simp only [Except.ok.injEq, Prod.mk.injEq] at h
          obtain ⟨h1, h2⟩ := h
          subst h1
          subst h2
          exact ⟨rfl, publishAndFire_ends _ _⟩
        · rcases hlb : env.listLocalBinaries root with m | bins
          all_goals simp only [hlb] at h
          · exact Except.noConfusion h
          · split at h
            · simp only [Except.ok.injEq, Prod.mk.injEq] at h
              obtain ⟨h1, h2⟩ := h
              subst h1
              subst h2
              exact ⟨rfl, publishAndFire_ends _ _⟩
            · rcases hla : env.listArtifacts s.token with m | arts
              all_goals simp only [hla] at h
              · exact Except.noConfusion h
              · simp only [Except.ok.injEq, Prod.mk.injEq] at h
                obtain ⟨h1, h2⟩ := h
                subst h1
                subst h2
                exact ⟨rfl, publishAndFire_ends _ _⟩

theorem refreshTryBody_ok_spec (env : RefreshEnv) (s1 : EngineState)
    (s' : EngineState) (evs' : List Event)
    (h : RaceHubViewProvider.refreshTryBody env s1 = Except.ok (s', evs')) :
    legalCombo s'.state s'.stateDetail = true ∧
      endsWithPublish evs' s'.state s'.stateDetail := by
  unfold RaceHubViewProvider.refreshTryBody at h
  rcases hc : env.fetchCapabilities with m | caps
  all_goals simp only [hc] at h
  · exact Except.noConfusion h
  · split at h
    · rcases ht : env.readToken with m | tok
      all_goals simp only [ht] at h
      · exact Except.noConfusion h
      · split at h
        · simp only [Except.ok.injEq, Prod.mk.injEq] at h
          obtain ⟨h1, h2⟩ := h
          subst h1
          subst h2
          exact ⟨rfl, publishAndFire_ends _ _⟩
        · exact refreshAfterAuth_ok_spec _ _ _ _ _ h
    · exact refreshAfterAuth_ok_spec _ _ _ _ _ h

/-- Every refresh run ends with a legal (state, detail) pair and a trace that
publishes that pair and fires the change notification last. -/
theorem refresh_spec (env : RefreshEnv) (s0 : EngineState) :
    legalCombo (RaceHubViewProvider.refreshArtifacts env s0).es.state
        (RaceHubViewProvider.refreshArtifacts env s0).es.stateDetail = true ∧
      endsWithPublish (RaceHubViewProvider.refreshArtifacts env s0).events
        (RaceHubViewProvider.refreshArtifacts env s0).es.state
        (RaceHubViewProvider.refreshArtifacts env s0).es.stateDetail := by
  unfold RaceHubViewProvider.refreshArtifacts
  split
  · rename_i s evs heq
    exact refreshTryBody_ok_spec _ _ _ _ heq
  · rename_i s evs m heq
    split
    · exact ⟨rfl, publishAndFire_ends _ _⟩
    · exact ⟨rfl, publishAndFire_ends _ _⟩

/-- C1: every `refreshArtifacts` run terminates with the (state, detail)
pair drawn from the three states' legal detail sets (loggedOut with
notLoggedIn/sessionExpired/requestError, needsWorkspace with
workspaceMissing/noBinaries, ready with none), and on every exit path —
success or failure — the trace publishes exactly that ViewStatus
(`pushContext`) and fires the change notification as its last two events
before the method returns. -/
theorem C1_refresh_legal_status_and_always_publishes (env : RefreshEnv) (s0 : EngineState) :
    legalCombo (RaceHubViewProvider.refreshArtifacts env s0).es.state
        (RaceHubViewProvider.refreshArtifacts env s0).es.stateDetail = true ∧
      endsWithPublish (RaceHubViewProvider.refreshArtifacts env s0).events
        (RaceHubViewProvider.refreshArtifacts env s0).es.state
        (RaceHubViewProvider.refreshArtifacts env s0).es.stateDetail :=
  refresh_spec env s0

/-- C3: if any step of the `try` body of `refreshArtifacts` throws (the
outcome records a caught message), then: when the stringified error contains
the marker `401` the session token is cleared and the run ends
loggedOut/sessionExpired; for every other error the run ends
loggedOut/requestError and the session store is not touched (no
`clearToken` call in the trace); in both cases the method still returns
normally, publishing the resulting status. -/
theorem C3_caught_error_classification (env : RefreshEnv) (s0 : EngineState) (m : String)
    (h : (RaceHubViewProvider.refreshArtifacts env s0).caught = Option.some m) :
    ((strContains m "401" = true →
        (RaceHubViewProvider.refreshArtifacts env s0).es.state = ViewState.loggedOut ∧
        (RaceHubViewProvider.refreshArtifacts env s0).es.stateDetail = ViewStateDetail.sessionExpired ∧
        (RaceHubViewProvider.refreshArtifacts env s0).events.any Event.isClearToken = true) ∧
     (strContains m "401" = false →
        (RaceHubViewProvider.refreshArtifacts env s0).es.state = ViewState.loggedOut ∧
        (RaceHubViewProvider.refreshArtifacts env s0).es.stateDetail = ViewStateDetail.requestError ∧
        (RaceHubViewProvider.refreshArtifacts env s0).events.any Event.isClearToken = false)) ∧
    endsWithPublish (RaceHubViewProvider.refreshArtifacts env s0).events
      (RaceHubViewProvider.refreshArtifacts env s0).es.state
      (RaceHubViewProvider.refreshArtifacts env s0).es.stateDetail := by
  refine ⟨?_, (refresh_spec env s0).2⟩
  have hkind := refreshTryBody_tryKind env
    { s0 with artifacts := [], stateDetail := ViewStateDetail.none,
              localBinaries := [], workspaceRoot := env.getWorkspaceRoot }
  unfold RaceHubViewProvider.refreshArtifacts at h ⊢
  rcases heq : RaceHubViewProvider.refreshTryBody env
      { s0 with artifacts := [], stateDetail := ViewStateDetail.none,
                localBinaries := [], workspaceRoot := env.getWorkspaceRoot }
    with ⟨sE, evsE, mE⟩ | ⟨sO, evsO⟩
  all_goals rw [heq] at hkind
  all_goals simp only [heq] at h ⊢
  · simp only [tracesAllTry] at hkind
    cases h401 : strContains mE "401"
    · rw [if_neg (by simp [h401])] at h ⊢
      simp only [RefreshOutcome.caught, Option.some.injEq] at h
      subst h
      refine ⟨fun hc => absurd hc (by simp [h401]), fun _ => ⟨rfl, rfl, ?_⟩⟩
      have hno : evsE.any Event.isClearToken = false :=
        all_imp_any_eq_false
          (fun e he => by cases e <;> simp_all [Event.isTryKind, Event.isClearToken])
          _ hkind
      simp [publishAndFire, List.any_append, hno, Event.isClearToken]
    · rw [if_pos (by simp [h401])] at h ⊢
      simp only [RefreshOutcome.caught, Option.some.injEq] at h
      subst h
      refine ⟨fun _ => ⟨rfl, rfl, ?_⟩, fun hc => absurd hc (by simp [h401])⟩
      simp [publishAndFire, List.any_append, Event.isClearToken]
  · simp at h

/-- The workspace manifest is absent or invalid: no workspace root, an empty
root, or `hasCargoToml` reporting false. -/
def manifestAbsentFor (env : RefreshEnv) (ws : Option String) : Prop :=
  match ws with
  | Option.none => True
  | Option.some root => root = "" ∨ env.hasCargoToml root = Except.ok false

theorem refreshAfterAuth_manifest_absent (env : RefreshEnv) (s : EngineState)
    (evs : List Event)
    (hman : manifestAbsentFor env s.workspaceRoot)
    (hevs : evs.any Event.isListArtifacts = false) :
    ∃ s' evs', RaceHubViewProvider.refreshAfterAuth env s evs = Except.ok (s', evs') ∧
      s'.state = ViewState.needsWorkspace ∧
      s'.stateDetail = ViewStateDetail.workspaceMissing ∧
      evs'.any Event.isListArtifacts = false := by
  unfold RaceHubViewProvider.refreshAfterAuth
  rcases hws : s.workspaceRoot with _ | root
  all_goals simp only [manifestAbsentFor, hws] at hman
  all_goals dsimp only
  · refine ⟨_, _, rfl, rfl, rfl, ?_⟩
    simp [publishAndFire, List.any_append, hevs, Event.isListArtifacts]
  · by_cases hr : root = ""
    · rw [if_pos hr]
      refine ⟨_, _, rfl, rfl, rfl, ?_⟩
      simp [publishAndFire, List.any_append, hevs, Event.isListArtifacts]
    · rw [if_neg hr]
      rcases hman with hman | hman
      · exact absurd hman hr
      · simp only [hman]
        rw [if_pos (by simp)]
        refine ⟨_, _, rfl, rfl, rfl, ?_⟩
        simp [publishAndFire, List.any_append, hevs, Event.isListArtifacts]

theorem refreshAfterAuth_no_binaries (env : RefreshEnv) (s : EngineState)
    (evs : List Event) (root : String)
    (hws : s.workspaceRoot = Option.some root) (hr : root ≠ "")
    (hct : env.hasCargoToml root = Except.ok true)
    (hlb : env.listLocalBinaries root = Except.ok []) :
    ∃ s' evs', RaceHubViewProvider.refreshAfterAuth env s evs = Except.ok (s', evs') ∧
      s'.state = ViewState.needsWorkspace ∧
      s'.stateDetail = ViewStateDetail.noBinaries := by
  unfold RaceHubViewProvider.refreshAfterAuth
  simp only [hws]
  rw [if_neg hr]
  simp only [hct]
  rw [if_neg (by simp)]
  simp only [hlb]
  rw [if_pos (by rfl)]
  exact ⟨_, _, rfl, rfl, rfl⟩

/-- C7: for every refresh run that passes the authentication gate (the
capability probe answers, and if it demands authentication the session store
yields a non-empty token): when the workspace manifest is absent or invalid
the run ends needsWorkspace/workspaceMissing without calling the
artifact-list endpoint; when the manifest is valid but zero local binaries
are discovered the run ends needsWorkspace/noBinaries. -/
theorem C7_workspace_gating (env : RefreshEnv) (s0 : EngineState) (caps : Caps)
    (tok : Option String)
    (hc : env.fetchCapabilities = Except.ok caps)
    (hgate : caps.auth_required = true →
      env.readToken = Except.ok tok ∧ strFalsy tok = false) :
    (manifestAbsentFor env env.getWorkspaceRoot →
      (RaceHubViewProvider.refreshArtifacts env s0).es.state = ViewState.needsWorkspace ∧
      (RaceHubViewProvider.refreshArtifacts env s0).es.stateDetail = ViewStateDetail.workspaceMissing ∧
      (RaceHubViewProvider.refreshArtifacts env s0).events.any Event.isListArtifacts = false) ∧
    (∀ root, env.getWorkspaceRoot = Option.some root → root ≠ "" →
      env.hasCargoToml root = Except.ok true →
      env.listLocalBinaries root = Except.ok [] →
      (RaceHubViewProvider.refreshArtifacts env s0).es.state = ViewState.needsWorkspace ∧
      (RaceHubViewProvider.refreshArtifacts env s0).es.stateDetail = ViewStateDetail.noBinaries) := by
  constructor
  · intro hman
    unfold RaceHubViewProvider.refreshArtifacts RaceHubViewProvider.refreshTryBody
    cases hca : caps.auth_required
    · simp only [hc, hca, Bool.false_eq_true, if_neg]
      obtain ⟨s', evs', heq, h1, h2, h3⟩ :=
        refreshAfterAuth_manifest_absent env
          { s0 with artifacts := [], stateDetail := ViewStateDetail.none,
                    localBinaries := [], workspaceRoot := env.getWorkspaceRoot,
                    token := Option.none }
          [Event.fetchCapabilities] hman (by simp [Event.isListArtifacts])
      simp only [heq]
      exact ⟨h1, h2, h3⟩
    · obtain ⟨ht, hf⟩ := hgate hca
      simp only [hc, hca, ht, hf, if_true]
      rw [if_neg (by simp [hf])]
      obtain ⟨s', evs', heq, h1, h2, h3⟩ :=
        refreshAfterAuth_manifest_absent env
          { s0 with artifacts := [], stateDetail := ViewStateDetail.none,
                    localBinaries := [], workspaceRoot := env.getWorkspaceRoot,
                    token := tok }
          ([Event.fetchCapabilities] ++ [Event.readToken]) hman (by simp [Event.isListArtifacts])
      simp only [heq]
      exact ⟨h1, h2, h3⟩
  · intro root hroot hr hct hlb
    unfold RaceHubViewProvider.refreshArtifacts RaceHubViewProvider.refreshTryBody
    cases hca : caps.auth_required
    · simp only [hc, hca, Bool.false_eq_true, if_neg]
      obtain ⟨s', evs', heq, h1, h2⟩ :=
        refreshAfterAuth_no_binaries env
          { s0 with artifacts := [], stateDetail := ViewStateDetail.none,
                    localBinaries := [], workspaceRoot := env.getWorkspaceRoot,
                    token := Option.none }
          [Event.fetchCapabilities] root hroot hr hct hlb
      simp only [heq]
      exact ⟨h1, h2⟩
    · obtain ⟨ht, hf⟩ := hgate hca
      simp only [hc, hca, ht, hf, if_true]
      rw [if_neg (by simp [hf])]
      obtain ⟨s', evs', heq, h1, h2⟩ :=
        refreshAfterAuth_no_binaries env
          { s0 with artifacts := [], stateDetail := ViewStateDetail.none,
                    localBinaries := [], workspaceRoot := env.getWorkspaceRoot,
                    token := tok }
          ([Event.fetchCapabilities] ++ [Event.readToken]) root hroot hr hct hlb
      simp only [heq]
      exact ⟨h1, h2⟩

/-- C6: when the capability probe reports auth_required = true and the
session store holds no token, refresh ends loggedOut/notLoggedIn and the
trace contains no workspace-inspection call (`hasCargoToml`,
`listLocalBinaries`) and no artifact-list call. -/
theorem C6_auth_required_without_token (env : RefreshEnv) (s0 : EngineState)
    (hc : env.fetchCapabilities = Except.ok { auth_required := true })
    (ht : env.readToken = Except.ok Option.none) :
    (RaceHubViewProvider.refreshArtifacts env s0).es.state = ViewState.loggedOut ∧
    (RaceHubViewProvider.refreshArtifacts env s0).es.stateDetail = ViewStateDetail.notLoggedIn ∧
    (RaceHubViewProvider.refreshArtifacts env s0).events.any Event.isWorkspaceInspection = false ∧
    (RaceHubViewProvider.refreshArtifacts env s0).events.any Event.isListArtifacts = false := by
  unfold RaceHubViewProvider.refreshArtifacts RaceHubViewProvider.refreshTryBody
  simp [hc, ht, strFalsy, publishAndFire, Event.isWorkspaceInspection, Event.isListArtifacts]

theorem refreshAfterAuth_ok_binaries (env : RefreshEnv) (s : EngineState) (evs : List Event)
    (s' : EngineState) (evs' : List Event)
    (h : RaceHubViewProvider.refreshAfterAuth env s evs = Except.ok (s', evs'))
    (hinit : s.localBinaries = [])
    (hnr : s'.stateDetail = ViewStateDetail.notLoggedIn ∨ s'.state = ViewState.needsWorkspace) :
    s'.localBinaries = [] := by
  unfold RaceHubViewProvider.refreshAfterAuth at h
  rcases hws : s.workspaceRoot with _ | root
  all_goals simp only [hws] at h
  · simp only [Except.ok.injEq, Prod.mk.injEq] at h
    obtain ⟨h1, h2⟩ := h
    subst h1
    simpa using hinit
  · split at h
    · simp only [Except.ok.injEq, Prod.mk.injEq] at h
      obtain ⟨h1, h2⟩ := h
      subst h1
      simpa using hinit
    · rcases hct : env.hasCargoToml root with m | has
      all_goals simp only [hct] at h
      · exact Except.noConfusion h
      · split at h
        · simp only [Except.ok.injEq, Prod.mk.injEq] at h
          obtain ⟨h1, h2⟩ := h
          subst h1
          simpa using hinit
        · rcases hlb : env.listLocalBinaries root with m | bins
          all_goals simp only [hlb] at h
          · exact Except.noConfusion h
          · split at h
            · rename_i hlen
              simp only [Except.ok.injEq, Prod.mk.injEq] at h
              obtain ⟨h1, h2⟩ := h
              subst h1
              simpa using List.length_eq_zero.mp hlen
            · rcases hla : env.listArtifacts s.token with m | arts
              all_goals simp only [hla] at h
              · exact Except.noConfusion h
              · simp only [Except.ok.injEq, Prod.mk.injEq] at h
                obtain ⟨h1, h2⟩ := h
                subst h1
                simp at hnr

theorem refreshTryBody_ok_binaries (env : RefreshEnv) (s1 : EngineState)
    (s' : EngineState) (evs' : List Event)
    (h : RaceHubViewProvider.refreshTryBody env s1 = Except.ok (s', evs'))
    (hinit : s1.localBinaries = [])
    (hnr : s'.stateDetail = ViewStateDetail.notLoggedIn ∨ s'.state = ViewState.needsWorkspace) :
    s'.localBinaries = [] := by
  unfold RaceHubViewProvider.refreshTryBody at h
  rcases hc : env.fetchCapabilities with m | caps
  all_goals simp only [hc] at h
  · exact Except.noConfusion h
  · split at h
    · rcases ht : env.readToken with m | tok
      all_goals simp only [ht] at h
      · exact Except.noConfusion h
      · split at h
        · simp only [Except.ok.injEq, Prod.mk.injEq] at h
          obtain ⟨h1, h2⟩ := h
          subst h1
          simpa using hinit
        · exact refreshAfterAuth_ok_binaries _ _ _ _ _ h (by simpa using hinit) hnr
    · exact refreshAfterAuth_ok_binaries _ _ _ _ _ h (by simpa using hinit) hnr

/-- If a refresh ends with detail notLoggedIn or in the needsWorkspace
state, the local-binary snapshot is empty. -/
theorem refresh_nonready_binaries_empty (env : RefreshEnv) (s0 : EngineState)
    (h : (RaceHubViewProvider.refreshArtifacts env s0).es.stateDetail = ViewStateDetail.notLoggedIn ∨
         (RaceHubViewProvider.refreshArtifacts env s0).es.state = ViewState.needsWorkspace) :
    (RaceHubViewProvider.refreshArtifacts env s0).es.localBinaries = [] := by
  unfold RaceHubViewProvider.refreshArtifacts at h ⊢
  rcases heq : RaceHubViewProvider.refreshTryBody env
      { s0 with artifacts := [], stateDetail := ViewStateDetail.none,
                localBinaries := [], workspaceRoot := env.getWorkspaceRoot }
    with ⟨sE, evsE, mE⟩ | ⟨sO, evsO⟩
  all_goals simp only [heq] at h ⊢
  · split at h
    all_goals simp at h
  · exact refreshTryBody_ok_binaries _ _ _ _ heq rfl h

/-- Agreement of the local-binary snapshots of two try-body outcomes. -/
def binariesAgree :
    Except (EngineState × List Event × String) (EngineState × List Event) →
    Except (EngineState × List Event × String) (EngineState × List Event) → Prop
  | Except.ok (s, _), Except.ok (s', _) => s.localBinaries = s'.localBinaries
  | Except.error (s, _, _), Except.error (s', _, _) => s.localBinaries = s'.localBinaries
  | _, _ => False

theorem refreshAfterAuth_binaries_indep (env : RefreshEnv) (a b : EngineState)
    (evsa evsb : List Event)
    (hws : a.workspaceRoot = b.workspaceRoot)
    (hbin : a.localBinaries = b.localBinaries)
    (htok : a.token = b.token) :
    binariesAgree (RaceHubViewProvider.refreshAfterAuth env a evsa)
      (RaceHubViewProvider.refreshAfterAuth env b evsb) := by
  unfold RaceHubViewProvider.refreshAfterAuth
  rw [hws]
  rcases hwb : b.workspaceRoot with _ | root
  all_goals simp only [hwb]
  · simpa [binariesAgree] using hbin
  · by_cases hr : root = ""
    · rw [if_pos hr, if_pos hr]
      simpa [binariesAgree] using hbin
    · rw [if_neg hr, if_neg hr]
      rcases hct : env.hasCargoToml root with m | has
      all_goals simp only [hct]
      · simpa [binariesAgree] using hbin
      · cases has
        · simp [binariesAgree, hbin]
        · simp only [Bool.not_true]
          rw [if_neg (by simp), if_neg (by simp)]
          rcases hlb : env.listLocalBinaries root with m | bins
          all_goals simp only [hlb]
          · simpa [binariesAgree] using hbin
          · by_cases hlen : bins.length = 0
            · rw [if_pos hlen, if_pos hlen]
              simp [binariesAgree]
            · rw [if_neg hlen, if_neg hlen]
              rw [htok]
              rcases hla : env.listArtifacts b.token with m | arts
              all_goals simp only [hla]
              all_goals simp [binariesAgree]

theorem refreshTryBody_binaries_indep (env : RefreshEnv) (a b : EngineState)
    (hws : a.workspaceRoot = b.workspaceRoot)
    (hbin : a.localBinaries = b.localBinaries) :
    binariesAgree (RaceHubViewProvider.refreshTryBody env a)
      (RaceHubViewProvider.refreshTryBody env b) := by
  unfold RaceHubViewProvider.refreshTryBody
  rcases hc : env.fetchCapabilities with m | caps
  all_goals simp only [hc]
  · simpa [binariesAgree] using hbin
  · obtain ⟨ar⟩ := caps
    cases ar
    · rw [if_neg (by simp), if_neg (by simp)]
      exact refreshAfterAuth_binaries_indep env _ _ _ _ hws hbin rfl
    · rw [if_pos (by simp), if_pos (by simp)]
      rcases ht : env.readToken with m | tok
      all_goals simp only [ht]
      · simpa [binariesAgree] using hbin
      · cases hsf : strFalsy tok
        · rw [if_neg (by simp), if_neg (by simp)]
          exact refreshAfterAuth_binaries_indep env _ _ _ _ hws hbin rfl
        · rw [if_pos rfl, if_pos rfl]
          simpa [binariesAgree] using hbin

/-- Each refresh fully replaces the local-binary snapshot: the final
collection does not depend on the snapshot held before the call. -/
theorem refresh_replaces_binaries (env : RefreshEnv) (s0 s1 : EngineState) :
    (RaceHubViewProvider.refreshArtifacts env s0).es.localBinaries =
      (RaceHubViewProvider.refreshArtifacts env s1).es.localBinaries := by
  have hag := refreshTryBody_binaries_indep env
    { s0 with artifacts := [], stateDetail := ViewStateDetail.none,
              localBinaries := [], workspaceRoot := env.getWorkspaceRoot }
    { s1 with artifacts := [], stateDetail := ViewStateDetail.none,
              localBinaries := [], workspaceRoot := env.getWorkspaceRoot }
    rfl rfl
  unfold RaceHubViewProvider.refreshArtifacts
  rcases heqa : RaceHubViewProvider.refreshTryBody env
      { s0 with artifacts := [], stateDetail := ViewStateDetail.none,
                localBinaries := [], workspaceRoot := env.getWorkspaceRoot }
    with ⟨sa, evsa, ma⟩ | ⟨sa, evsa⟩
  all_goals
    rcases heqb : RaceHubViewProvider.refreshTryBody env
        { s1 with artifacts := [], stateDetail := ViewStateDetail.none,
                  localBinaries := [], workspaceRoot := env.getWorkspaceRoot }
      with ⟨sb, evsb, mb⟩ | ⟨sb, evsb⟩
  all_goals rw [heqa, heqb] at hag
  all_goals simp only [binariesAgree] at hag
  all_goals simp only [heqa, heqb]
  · by_cases h1 : strContains ma "401" = true
    all_goals by_cases h2 : strContains mb "401" = true
    all_goals simp [h1, h2, hag]
  · exact hag

theorem getCurrentLocalBinaries_ok_spec (renv : RefreshEnv) (s : EngineState)
    (s1 : EngineState) (bins : List LocalBinary) (evs : List Event)
    (h : RaceHubViewProvider.getCurrentLocalBinaries renv s = Except.ok (s1, bins, evs)) :
    evs.all Event.isWorkspaceInspection = true ∧
      s1.state = s.state ∧ s1.stateDetail = s.stateDetail := by
  unfold RaceHubViewProvider.getCurrentLocalBinaries at h
  rcases hws : renv.getWorkspaceRoot with _ | root
  all_goals simp only [hws] at h
  · simp only [Except.ok.injEq, Prod.mk.injEq] at h
    obtain ⟨h1, h2, h3⟩ := h
    subst h1
    subst h3
    exact ⟨rfl, rfl, rfl⟩
  · split at h
    · simp only [Except.ok.injEq, Prod.mk.injEq] at h
      obtain ⟨h1, h2, h3⟩ := h
      subst h1
      subst h3
      exact ⟨rfl, rfl, rfl⟩
    · rcases hct : renv.hasCargoToml root with m | has
      all_goals simp only [hct] at h
      · exact Except.noConfusion h
      · split at h
        · simp only [Except.ok.injEq, Prod.mk.injEq] at h
          obtain ⟨h1, h2, h3⟩ := h
          subst h1
          subst h3
          exact ⟨by simp [Event.isWorkspaceInspection], rfl, rfl⟩
        · rcases hlb : renv.listLocalBinaries root with m | bins2
          all_goals simp only [hlb] at h
          · exact Except.noConfusion h
          · simp only [Except.ok.injEq, Prod.mk.injEq] at h
            obtain ⟨h1, h2, h3⟩ := h
            subst h1
            subst h3
            exact ⟨by simp [Event.isWorkspaceInspection], rfl, rfl⟩

theorem getCurrentLocalBinaries_error_spec (renv : RefreshEnv) (s : EngineState)
    (s1 : EngineState) (evs : List Event) (m : String)
    (h : RaceHubViewProvider.getCurrentLocalBinaries renv s = Except.error (s1, evs, m)) :
    s1 = s ∧ evs.all Event.isWorkspaceInspection = true := by
  unfold RaceHubViewProvider.getCurrentLocalBinaries at h
  rcases hws : renv.getWorkspaceRoot with _ | root
  all_goals simp only [hws] at h
  · exact Except.noConfusion h
  · split at h
    · exact Except.noConfusion h
    · rcases hct : renv.hasCargoToml root with m2 | has
      all_goals simp only [hct] at h
      · simp only [Except.error.injEq, Prod.mk.injEq] at h
        obtain ⟨h1, h2, h3⟩ := h
        subst h1
        subst h2
        exact ⟨rfl, by simp [Event.isWorkspaceInspection]⟩
      · split at h
        · exact Except.noConfusion h
        · rcases hlb : renv.listLocalBinaries root with m2 | bins2
          all_goals simp only [hlb] at h
          · simp only [Except.error.injEq, Prod.mk.injEq] at h
            obtain ⟨h1, h2, h3⟩ := h
            subst h1
            subst h2
            exact ⟨rfl, by simp [Event.isWorkspaceInspection]⟩
          · exact Except.noConfusion h

/-- C4: on an artifact not owned by the operator, Replace, Delete and
ToggleVisibility each raise their precondition error synchronously, issue no
call at all, and leave the engine state unchanged; Replace on an owned
artifact with no local binary available raises its precondition error after
only workspace-inspection (non-network) calls; Delete on an owned artifact
whose confirmation is non-affirmative returns silently with no call and no
state change. -/
theorem C4_precondition_aborts (env : WorkflowEnv) (s : EngineState) (a : ArtifactSummary) :
    (a.owned_by_me = false →
      RaceHubViewProvider.replaceArtifact env s (Option.some (Node.remoteArtifact a)) =
        { es := s, events := [], err := Option.some "You can only replace artifacts you own." } ∧
      RaceHubViewProvider.deleteArtifactItem env s (Option.some (Node.remoteArtifact a)) =
        { es := s, events := [], err := Option.some "You can only delete artifacts you own." } ∧
      RaceHubViewProvider.toggleVisibility env s (Option.some (Node.remoteArtifact a)) =
        { es := s, events := [], err := Option.some "You can only change visibility of artifacts you own." }) ∧
    (∀ s1 evs, a.owned_by_me = true →
      RaceHubViewProvider.getCurrentLocalBinaries env.refreshEnv s = Except.ok (s1, [], evs) →
      RaceHubViewProvider.replaceArtifact env s (Option.some (Node.remoteArtifact a)) =
        { es := s1, events := evs,
          err := Option.some "No local binaries available in the current bot workspace." } ∧
      evs.any Event.isNetwork = false) ∧
    (a.owned_by_me = true → env.confirmDelete = false →
      RaceHubViewProvider.deleteArtifactItem env s (Option.some (Node.remoteArtifact a)) =
        { es := s, events := [], err := Option.none }) := by
  refine ⟨?_, ?_, ?_⟩
  · intro h
    unfold RaceHubViewProvider.replaceArtifact RaceHubViewProvider.deleteArtifactItem
      RaceHubViewProvider.toggleVisibility
    dsimp only
    rw [h]
    exact ⟨rfl, rfl, rfl⟩
  · intro s1 evs h hg
    unfold RaceHubViewProvider.replaceArtifact
    dsimp only
    rw [h]
    simp only [Bool.not_true]
    rw [if_neg (by simp)]
    simp only [hg]
    rw [if_pos (by rfl)]
    refine ⟨rfl, ?_⟩
    exact all_imp_any_eq_false
      (fun e he => by cases e <;> simp_all [Event.isWorkspaceInspection, Event.isNetwork])
      _ (getCurrentLocalBinaries_ok_spec _ _ _ _ _ hg).1
  · intro h hcd
    unfold RaceHubViewProvider.deleteArtifactItem
    dsimp only
    rw [h, hcd]
    rfl

/-- C10: invoking any per-item workflow operation with no item, or with an
item whose node kind does not match the operation, returns immediately with
no error, an empty trace (no network or filesystem call), and the engine
state unchanged. -/
theorem C10_item_guards (env : WorkflowEnv) (s : EngineState) (node : Node) :
    (RaceHubViewProvider.buildAndUploadBinary env s Option.none =
        { es := s, events := [], err := Option.none } ∧
     RaceHubViewProvider.buildBinaryItem env s Option.none =
        { es := s, events := [], err := Option.none } ∧
     RaceHubViewProvider.revealElfPath env s Option.none =
        { es := s, events := [], err := Option.none } ∧
     RaceHubViewProvider.replaceArtifact env s Option.none =
        { es := s, events := [], err := Option.none } ∧
     RaceHubViewProvider.deleteArtifactItem env s Option.none =
        { es := s, events := [], err := Option.none } ∧
     RaceHubViewProvider.toggleVisibility env s Option.none =
        { es := s, events := [], err := Option.none }) ∧
    ((∀ b, node ≠ Node.localBin b) →
      RaceHubViewProvider.buildAndUploadBinary env s (Option.some node) =
        { es := s, events := [], err := Option.none } ∧
      RaceHubViewProvider.buildBinaryItem env s (Option.some node) =
        { es := s, events := [], err := Option.none } ∧
      RaceHubViewProvider.revealElfPath env s (Option.some node) =
        { es := s, events := [], err := Option.none }) ∧
    ((∀ a, node ≠ Node.remoteArtifact a) →
      RaceHubViewProvider.replaceArtifact env s (Option.some node) =
        { es := s, events := [], err := Option.none } ∧
      RaceHubViewProvider.deleteArtifactItem env s (Option.some node) =
        { es := s, events := [], err := Option.none } ∧
      RaceHubViewProvider.toggleVisibility env s (Option.some node) =
        { es := s, events := [], err := Option.none }) := by
  refine ⟨⟨rfl, rfl, rfl, rfl, rfl, rfl⟩, ?_, ?_⟩
  · intro hb
    cases node
    case localBin b => exact absurd rfl (hb b)
    all_goals exact ⟨rfl, rfl, rfl⟩
  · intro ha
    cases node
    case remoteArtifact a => exact absurd rfl (ha a)
    all_goals exact ⟨rfl, rfl, rfl⟩

/-- Concrete environment for the C9 counterexample: valid workspace with one
binary, but the artifact-list fetch fails (no 401 marker). -/
def envC9cex : RefreshEnv :=
  { getWorkspaceRoot := Option.some "r"
    fetchCapabilities := Except.ok { auth_required := false }
    readToken := Except.ok Option.none
    hasCargoToml := fun _ => Except.ok true
    listLocalBinaries := fun _ =>
      Except.ok [{ name := "car", rootPath := "r", sourcePath := Option.none }]
    listArtifacts := fun _ => Except.error "server exploded" }

/-- C9 counterexample: a refresh whose artifact-list fetch throws ends in
state loggedOut (detail requestError) while the local-binary snapshot still
holds the freshly enumerated non-empty list — the catch handler never clears
it, so "localBinaries non-empty only while ready" is false on the code. -/
theorem C9_counterexample_loggedOut_with_binaries :
    (RaceHubViewProvider.refreshArtifacts envC9cex initialEngineState).es.state =
        ViewState.loggedOut ∧
      (RaceHubViewProvider.refreshArtifacts envC9cex initialEngineState).es.stateDetail =
        ViewStateDetail.requestError ∧
      (RaceHubViewProvider.refreshArtifacts envC9cex initialEngineState).es.localBinaries.isEmpty =
        false :=
  ⟨rfl, rfl, rfl⟩

/-- C9 amended: each refresh clears and fully replaces the local-binary
snapshot (the final collection never depends on the previous one), and the
collection is empty whenever the refresh ends notLoggedIn or in the
needsWorkspace state; however a refresh that fails after the binary
enumeration (loggedOut with sessionExpired or requestError) may retain the
freshly enumerated collection. -/
theorem C9_amended_snapshot_discipline (env : RefreshEnv) (s0 s1 : EngineState) :
    (((RaceHubViewProvider.refreshArtifacts env s0).es.stateDetail = ViewStateDetail.notLoggedIn ∨
      (RaceHubViewProvider.refreshArtifacts env s0).es.state = ViewState.needsWorkspace) →
      (RaceHubViewProvider.refreshArtifacts env s0).es.localBinaries = []) ∧
    (RaceHubViewProvider.refreshArtifacts env s0).es.localBinaries =
      (RaceHubViewProvider.refreshArtifacts env s1).es.localBinaries :=
  ⟨refresh_nonready_binaries_empty env s0, refresh_replaces_binaries env s0 s1⟩

/-- Concrete environment for the C9 witness: no workspace root, so refresh
ends needsWorkspace/workspaceMissing. -/
def envC9w : RefreshEnv :=
  { getWorkspaceRoot := Option.none
    fetchCapabilities := Except.ok { auth_required := false }
    readToken := Except.ok Option.none
    hasCargoToml := fun _ => Except.ok false
    listLocalBinaries := fun _ => Except.ok []
    listArtifacts := fun _ => Except.ok [] }

theorem C9_amended_snapshot_discipline_witness :
    (RaceHubViewProvider.refreshArtifacts envC9w initialEngineState).es.localBinaries = [] ∧
    (RaceHubViewProvider.refreshArtifacts envC9w initialEngineState).es.localBinaries =
      (RaceHubViewProvider.refreshArtifacts envC9w
        { initialEngineState with
            localBinaries := [{ name := "x", rootPath := "r", sourcePath := Option.none }] }).es.localBinaries :=
  ⟨(C9_amended_snapshot_discipline envC9w initialEngineState initialEngineState).1
      (Or.inr (by rfl)),
   (C9_amended_snapshot_discipline envC9w initialEngineState
      { initialEngineState with
          localBinaries := [{ name := "x", rootPath := "r", sourcePath := Option.none }] }).2⟩

/-- C8 counterexample: the code keeps `state` and `stateDetail` as two
independent fields (lines 105-106), so the illegal combination state=ready
with detail=notLoggedIn is representable by the data model — this value
typechecks and violates the legality predicate, refuting
"unrepresentable by construction". -/
theorem C8_counterexample_illegal_combo_representable :
    legalCombo
        (EngineState.mk ViewState.ready ViewStateDetail.notLoggedIn
          Option.none Option.none [] []).state
        (EngineState.mk ViewState.ready ViewStateDetail.notLoggedIn
          Option.none Option.none [] []).stateDetail = false :=
  rfl

/-- C8 amended: illegal (state, detail) combinations are representable by the
code's types (two independent fields), but the legality invariant is
maintained dynamically: the initial field values are legal, every refresh
ends legal, and every workflow operation preserves legality of the pair. -/
theorem C8_amended_legality_is_dynamic :
    legalCombo initialEngineState.state initialEngineState.stateDetail = true ∧
    (∀ env s0, legalCombo (RaceHubViewProvider.refreshArtifacts env s0).es.state
        (RaceHubViewProvider.refreshArtifacts env s0).es.stateDetail = true) ∧
    (∀ (env : WorkflowEnv) (s : EngineState) (item : Option Node),
      legalCombo s.state s.stateDetail = true →
      legalCombo (RaceHubViewProvider.buildBinaryItem env s item).es.state
          (RaceHubViewProvider.buildBinaryItem env s item).es.stateDetail = true ∧
      legalCombo (RaceHubViewProvider.revealElfPath env s item).es.state
          (RaceHubViewProvider.revealElfPath env s item).es.stateDetail = true ∧
      legalCombo (RaceHubViewProvider.buildAndUploadBinary env s item).es.state
          (RaceHubViewProvider.buildAndUploadBinary env s item).es.stateDetail = true ∧
      legalCombo (RaceHubViewProvider.replaceArtifact env s item).es.state
          (RaceHubViewProvider.replaceArtifact env s item).es.stateDetail = true ∧
      legalCombo (RaceHubViewProvider.deleteArtifactItem env s item).es.state
          (RaceHubViewProvider.deleteArtifactItem env s item).es.stateDetail = true ∧
      legalCombo (RaceHubViewProvider.toggleVisibility env s item).es.state
          (RaceHubViewProvider.toggleVisibility env s item).es.stateDetail = true) := by
  refine ⟨rfl, fun env s0 => (refresh_spec env s0).1, fun env s item h => ?_⟩
  refine ⟨?_, ?_, ?_, ?_, ?_, ?_⟩
  · unfold RaceHubViewProvider.buildBinaryItem
    rcases item with _ | node
    · exact h
    · cases node
      case localBin b =>
        dsimp only
        rcases hb : env.buildBinary b.rootPath b.name with m | u
        all_goals exact h
      all_goals exact h
  · unfold RaceHubViewProvider.revealElfPath
    rcases item with _ | node
    · exact h
    · cases node
      case localBin b =>
        dsimp only
        cases hee : env.elfExists (artifactOutputPath b.rootPath b.name)
        all_goals exact h
      all_goals exact h
  · unfold RaceHubViewProvider.buildAndUploadBinary
    rcases item with _ | node
    · exact h
    · cases node
      case localBin b =>
        dsimp only
        rcases hu : RaceHubViewProvider.uploadFromLocalBinary env s.token b b.name
          with ⟨evs, m⟩ | ⟨evs, oid⟩
        · exact h
        · exact (refresh_spec env.refreshEnv s).1
      all_goals exact h
  · unfold RaceHubViewProvider.replaceArtifact
    rcases item with _ | node
    · exact h
    · cases node
      case remoteArtifact a =>
        dsimp only
        cases ho : a.owned_by_me
        · exact h
        · rcases hg : RaceHubViewProvider.getCurrentLocalBinaries env.refreshEnv s
            with ⟨s1, evs, m⟩ | ⟨s1, bins, evs⟩
          · obtain ⟨h1, _⟩ := getCurrentLocalBinaries_error_spec _ _ _ _ _ hg
            subst h1
            exact h
          · obtain ⟨_, hst, hdt⟩ := getCurrentLocalBinaries_ok_spec _ _ _ _ _ hg
            have hs1 : legalCombo s1.state s1.stateDetail = true := by
              rw [hst, hdt]
              exact h
            rw [if_neg (by simp)]
            dsimp only
            by_cases hlen : bins.length = 0
            · rw [if_pos hlen]
              exact hs1
            · rw [if_neg hlen]
              rcases hp : env.quickPick bins with _ | picked
              · exact hs1
              · dsimp only
                rcases hu : RaceHubViewProvider.uploadFromLocalBinary env s1.token picked a.name
                  with ⟨evs2, m⟩ | ⟨evs2, oid⟩
                · exact hs1
                · exact (refresh_spec env.refreshEnv s1).1
      all_goals exact h
  · unfold RaceHubViewProvider.deleteArtifactItem
    rcases item with _ | node
    · exact h
    · cases node
      case remoteArtifact a =>
        dsimp only
        cases ho : a.owned_by_me
        · exact h
        · cases hcd : env.confirmDelete
          · exact h
          · rcases hd : env.deleteArtifact a.id s.token with m | u
            · exact h
            · exact (refresh_spec env.refreshEnv s).1
      all_goals exact h
  · unfold RaceHubViewProvider.toggleVisibility
    rcases item with _ | node
    · exact h
    · cases node
      case remoteArtifact a =>
        dsimp only
        cases ho : a.owned_by_me
        · exact h
        · rcases hv : env.updateArtifactVisibility a.id (!a.is_public) s.token with m | u
          · exact h
          · exact (refresh_spec env.refreshEnv s).1
      all_goals exact h

/-- Concrete environment exhibiting the C2 failing input: Replace on an
owned artifact where the operator dismisses the artifact-name prompt
(`nameInput` answers none). `uploadArtifact` is never reached. -/
def envC2bug : WorkflowEnv :=
  { refreshEnv :=
      { getWorkspaceRoot := Option.some "r"
        fetchCapabilities := Except.ok { auth_required := false }
        readToken := Except.ok Option.none
        hasCargoToml := fun _ => Except.ok true
        listLocalBinaries := fun _ =>
          Except.ok [{ name := "car", rootPath := "r", sourcePath := Option.none }]
        listArtifacts := fun _ => Except.ok [] }
    buildBinary := fun _ _ => Except.ok ()
    elfExists := fun _ => true
    nameInput := fun _ => Option.none
    noteInput := Option.none
    defaultArtifactTarget := "riscv"
    readFileBase64 := fun _ => "QUJD"
    uploadArtifact := fun _ _ => Except.error "unreachable"
    deleteArtifact := fun _ _ => Except.ok ()
    updateArtifactVisibility := fun _ _ _ => Except.ok ()
    quickPick := fun bins => bins.head?
    confirmDelete := true }

/-- C2 failing run: in Replace on owned artifact #7, when the operator
cancels the artifact-name prompt, `uploadFromLocalBinary` returns silently
without uploading, yet `replaceArtifact` proceeds to delete the old artifact
and reports success — the trace contains a successful remote delete and no
upload call at all, a partial execution that is not the sanctioned
delete-after-replace compensation. -/
theorem C2_replace_name_cancel_deletes_without_upload :
    (RaceHubViewProvider.replaceArtifact envC2bug initialEngineState
        (Option.some (Node.remoteArtifact
          { id := 7, name := "car", owner_username := "me",
            is_public := false, owned_by_me := true }))).events.any Event.isUploadCall = false ∧
    (RaceHubViewProvider.replaceArtifact envC2bug initialEngineState
        (Option.some (Node.remoteArtifact
          { id := 7, name := "car", owner_username := "me",
            is_public := false, owned_by_me := true }))).events.any Event.isDeleteOk = true ∧
    (RaceHubViewProvider.replaceArtifact envC2bug initialEngineState
        (Option.some (Node.remoteArtifact
          { id := 7, name := "car", owner_username := "me",
            is_public := false, owned_by_me := true }))).err = Option.none :=
  ⟨rfl, rfl, rfl⟩

/-- C5: in Replace on an owned artifact, when the upload of the replacement
succeeds but the delete of the old artifact fails, the workflow reports a
warning rather than a failure (it returns normally with a warning in the
trace), performs no rollback (exactly one upload call, and no successful
delete anywhere in the trace), still invokes refresh, and — refreshing
against the registry as mutated by exactly those calls — the resulting
snapshot is ready and contains the newly uploaded artifact. -/
theorem C5_replace_compensation_failure (env : WorkflowEnv) (s : EngineState)
    (a : ArtifactSummary) (s1 : EngineState) (bins : List LocalBinary) (evs : List Event)
    (picked : LocalBinary) (nm : String) (newId : Nat) (dm : String)
    (me : String) (reg : List ArtifactSummary) (root : String) (bins2 : List LocalBinary)
    (hOwn : a.owned_by_me = true)
    (hg : RaceHubViewProvider.getCurrentLocalBinaries env.refreshEnv s = Except.ok (s1, bins, evs))
    (hlen : ¬bins.length = 0)
    (hp : env.quickPick bins = Option.some picked)
    (hb : env.buildBinary picked.rootPath picked.name = Except.ok ())
    (he : env.elfExists (artifactOutputPath picked.rootPath picked.name) = true)
    (hn : env.nameInput a.name = Option.some nm)
    (hnm : ¬nm = "")
    (hu : env.uploadArtifact
        { name := nm, note := noteOrNull env.noteInput,
          target := env.defaultArtifactTarget,
          elf_base64 := env.readFileBase64 (artifactOutputPath picked.rootPath picked.name) }
        s1.token = Except.ok newId)
    (hd : env.deleteArtifact a.id s1.token = Except.error dm)
    (hc : env.refreshEnv.fetchCapabilities = Except.ok { auth_required := false })
    (hws : env.refreshEnv.getWorkspaceRoot = Option.some root)
    (hr : ¬root = "")
    (hct : env.refreshEnv.hasCargoToml root = Except.ok true)
    (hlb : env.refreshEnv.listLocalBinaries root = Except.ok bins2)
    (hlen2 : ¬bins2.length = 0)
    (hla : env.refreshEnv.listArtifacts Option.none =
      Except.ok (applyEvents me reg
        [Event.upload
            { name := nm, note := noteOrNull env.noteInput,
              target := env.defaultArtifactTarget,
              elf_base64 := env.readFileBase64 (artifactOutputPath picked.rootPath picked.name) }
            s1.token (Except.ok newId),
          Event.deleteCall a.id s1.token (Except.error dm)])) :
    (RaceHubViewProvider.replaceArtifact env s (Option.some (Node.remoteArtifact a))).err =
        Option.none ∧
    (RaceHubViewProvider.replaceArtifact env s (Option.some (Node.remoteArtifact a))).events.any
        Event.isShowWarning = true ∧
    (RaceHubViewProvider.replaceArtifact env s (Option.some (Node.remoteArtifact a))).events.countP
        Event.isUploadCall = 1 ∧
    (RaceHubViewProvider.replaceArtifact env s (Option.some (Node.remoteArtifact a))).events.any
        Event.isDeleteOk = false ∧
    (RaceHubViewProvider.replaceArtifact env s (Option.some (Node.remoteArtifact a))).events.any
        Event.isRefreshInvoked = true ∧
    (RaceHubViewProvider.replaceArtifact env s (Option.some (Node.remoteArtifact a))).es.state =
        ViewState.ready ∧
    (RaceHubViewProvider.replaceArtifact env s (Option.some (Node.remoteArtifact a))).es.artifacts.any
        (fun x => x.id == newId) = true := by
  have hwork := (getCurrentLocalBinaries_ok_spec _ _ _ _ _ hg).1
  have hrk := refresh_events_refreshKind env.refreshEnv s1
  have hready : (RaceHubViewProvider.refreshArtifacts env.refreshEnv s1).es.state =
        ViewState.ready ∧
      (RaceHubViewProvider.refreshArtifacts env.refreshEnv s1).es.artifacts =
        applyEvents me reg
          [Event.upload
              { name := nm, note := noteOrNull env.noteInput,
                target := env.defaultArtifactTarget,
                elf_base64 := env.readFileBase64 (artifactOutputPath picked.rootPath picked.name) }
              s1.token (Except.ok newId),
            Event.deleteCall a.id s1.token (Except.error dm)] := by
    unfold RaceHubViewProvider.refreshArtifacts RaceHubViewProvider.refreshTryBody
      RaceHubViewProvider.refreshAfterAuth
    simp only [hc, hws, hct, hlb, hla]
    rw [if_neg (by simp)]
    rw [if_neg hr]
    simp only [Bool.not_true]
    rw [if_neg (by simp)]
    rw [if_neg hlen2]
    exact ⟨rfl, rfl⟩
  unfold RaceHubViewProvider.replaceArtifact
  try dsimp only
  rw [hOwn]
  rw [if_neg (by simp)]
  simp only [hg]
  try dsimp only
  rw [if_neg hlen]
  simp only [hp]
  try dsimp only
  unfold RaceHubViewProvider.uploadFromLocalBinary
  simp only [hb]
  try dsimp only
  rw [if_neg (by simp [he])]
  simp only [hn]
  try dsimp only
  rw [if_neg hnm]
  simp only [hu]
  try dsimp only
  simp only [hd]
  try dsimp only
  have hz1 : List.countP Event.isUploadCall evs = 0 :=
    all_imp_countP_eq_zero
      (fun e he2 => by cases e <;> simp_all [Event.isWorkspaceInspection, Event.isUploadCall])
      _ hwork
  have hz2 : List.countP Event.isUploadCall
      (RaceHubViewProvider.refreshArtifacts env.refreshEnv s1).events = 0 :=
    all_imp_countP_eq_zero
      (fun e he2 => by cases e <;> simp_all [Event.isRefreshKind, Event.isTryKind,
        Event.isClearToken, Event.isUploadCall])
      _ hrk
  have hy1 : evs.any Event.isDeleteOk = false :=
    all_imp_any_eq_false
      (fun e he2 => by cases e <;> simp_all [Event.isWorkspaceInspection, Event.isDeleteOk])
      _ hwork
  have hy2 : (RaceHubViewProvider.refreshArtifacts env.refreshEnv s1).events.any
      Event.isDeleteOk = false :=
    all_imp_any_eq_false
      (fun e he2 => by cases e <;> simp_all [Event.isRefreshKind, Event.isTryKind,
        Event.isClearToken, Event.isDeleteOk])
      _ hrk
  refine ⟨by trivial, ?_, ?_, ?_, ?_, hready.1, ?_⟩
  · simp [List.any_append, Event.isShowWarning]
  · simp [List.countP_append, List.countP_cons, hz1, hz2, Event.isUploadCall]
  · simp [List.any_append, List.any_cons, hy1, hy2, Event.isDeleteOk]
  · simp [List.any_append, Event.isRefreshInvoked]
  · rw [hready.2]
    simp [applyEvents, applyEvent, List.any_append]

/-- Environment for the C3 witness: the capability probe itself rejects with
a message carrying the 401 marker. -/
def envC3w : RefreshEnv :=
  { getWorkspaceRoot := Option.none
    fetchCapabilities := Except.error "HTTP 401 Unauthorized"
    readToken := Except.ok Option.none
    hasCargoToml := fun _ => Except.ok true
    listLocalBinaries := fun _ => Except.ok []
    listArtifacts := fun _ => Except.ok [] }

theorem C3_caught_error_classification_witness :
    (RaceHubViewProvider.refreshArtifacts envC3w initialEngineState).es.state =
        ViewState.loggedOut ∧
      (RaceHubViewProvider.refreshArtifacts envC3w initialEngineState).es.stateDetail =
        ViewStateDetail.sessionExpired ∧
      (RaceHubViewProvider.refreshArtifacts envC3w initialEngineState).events.any
        Event.isClearToken = true :=
  ((C3_caught_error_classification envC3w initialEngineState "HTTP 401 Unauthorized" rfl).1).1
    (by rfl)

/-- Environment for the C4 witness: no workspace root, so the fresh
local-binary list is empty; the delete confirmation is non-affirmative. -/
def envC4w : WorkflowEnv :=
  { refreshEnv :=
      { getWorkspaceRoot := Option.none
        fetchCapabilities := Except.ok { auth_required := false }
        readToken := Except.ok Option.none
        hasCargoToml := fun _ => Except.ok true
        listLocalBinaries := fun _ => Except.ok []
        listArtifacts := fun _ => Except.ok [] }
    buildBinary := fun _ _ => Except.ok ()
    elfExists := fun _ => true
    nameInput := fun d => Option.some d
    noteInput := Option.none
    defaultArtifactTarget := "riscv"
    readFileBase64 := fun _ => "QUJD"
    uploadArtifact := fun _ _ => Except.ok 1
    deleteArtifact := fun _ _ => Except.ok ()
    updateArtifactVisibility := fun _ _ _ => Except.ok ()
    quickPick := fun bins => bins.head?
    confirmDelete := false }

theorem C4_precondition_aborts_witness :
    (RaceHubViewProvider.replaceArtifact envC4w initialEngineState
        (Option.some (Node.remoteArtifact
          { id := 3, name := "other", owner_username := "them",
            is_public := true, owned_by_me := false })) =
      { es := initialEngineState, events := [],
        err := Option.some "You can only replace artifacts you own." }) ∧
    (RaceHubViewProvider.replaceArtifact envC4w initialEngineState
        (Option.some (Node.remoteArtifact
          { id := 4, name := "mine", owner_username := "me",
            is_public := false, owned_by_me := true })) =
      { es := initialEngineState, events := [],
        err := Option.some "No local binaries available in the current bot workspace." }) ∧
    (RaceHubViewProvider.deleteArtifactItem envC4w initialEngineState
        (Option.some (Node.remoteArtifact
          { id := 4, name := "mine", owner_username := "me",
            is_public := false, owned_by_me := true })) =
      { es := initialEngineState, events := [], err := Option.none }) :=
  ⟨((C4_precondition_aborts envC4w initialEngineState
      { id := 3, name := "other", owner_username := "them",
        is_public := true, owned_by_me := false }).1 rfl).1,
   ((C4_precondition_aborts envC4w initialEngineState
      { id := 4, name := "mine", owner_username := "me",
        is_public := false, owned_by_me := true }).2.1
      initialEngineState [] rfl rfl).1,
   (C4_precondition_aborts envC4w initialEngineState
      { id := 4, name := "mine", owner_username := "me",
        is_public := false, owned_by_me := true }).2.2 rfl rfl⟩

/-- The local binary of the C5 witness scenario. -/
def carBinC5 : LocalBinary := { name := "car", rootPath := "r", sourcePath := Option.none }

/-- Environment for the C5 witness: build and upload succeed (new id 42),
the delete of the old artifact fails, and the registry listing afterwards
reflects exactly those two calls. -/
def envC5w : WorkflowEnv :=
  { refreshEnv :=
      { getWorkspaceRoot := Option.some "r"
        fetchCapabilities := Except.ok { auth_required := false }
        readToken := Except.ok Option.none
        hasCargoToml := fun _ => Except.ok true
        listLocalBinaries := fun _ => Except.ok [carBinC5]
        listArtifacts := fun _ =>
          Except.ok [{ id := 42, name := "car", owner_username := "me",
                       is_public := false, owned_by_me := true }] }
    buildBinary := fun _ _ => Except.ok ()
    elfExists := fun _ => true
    nameInput := fun _ => Option.some "car"
    noteInput := Option.none
    defaultArtifactTarget := "riscv"
    readFileBase64 := fun _ => "QUJD"
    uploadArtifact := fun _ _ => Except.ok 42
    deleteArtifact := fun _ _ => Except.error "boom"
    updateArtifactVisibility := fun _ _ _ => Except.ok ()
    quickPick := fun bins => bins.head?
    confirmDelete := true }

/-- The old artifact being replaced in the C5 witness scenario. -/
def artC5 : ArtifactSummary :=
  { id := 7, name := "car", owner_username := "me", is_public := false, owned_by_me := true }

theorem C5_replace_compensation_failure_witness :
    (RaceHubViewProvider.replaceArtifact envC5w initialEngineState
        (Option.some (Node.remoteArtifact artC5))).err = Option.none ∧
    (RaceHubViewProvider.replaceArtifact envC5w initialEngineState
        (Option.some (Node.remoteArtifact artC5))).events.any Event.isShowWarning = true ∧
    (RaceHubViewProvider.replaceArtifact envC5w initialEngineState
        (Option.some (Node.remoteArtifact artC5))).events.countP Event.isUploadCall = 1 ∧
    (RaceHubViewProvider.replaceArtifact envC5w initialEngineState
        (Option.some (Node.remoteArtifact artC5))).events.any Event.isDeleteOk = false ∧
    (RaceHubViewProvider.replaceArtifact envC5w initialEngineState
        (Option.some (Node.remoteArtifact artC5))).events.any Event.isRefreshInvoked = true ∧
    (RaceHubViewProvider.replaceArtifact envC5w initialEngineState
        (Option.some (Node.remoteArtifact artC5))).es.state = ViewState.ready ∧
    (RaceHubViewProvider.replaceArtifact envC5w initialEngineState
        (Option.some (Node.remoteArtifact artC5))).es.artifacts.any
      (fun x => x.id == 42) = true :=
  C5_replace_compensation_failure envC5w initialEngineState artC5
    { initialEngineState with workspaceRoot := Option.some "r", localBinaries := [carBinC5] }
    [carBinC5] [Event.hasCargoToml "r", Event.listLocalBinaries "r"]
    carBinC5 "car" 42 "boom" "me" [] "r" [carBinC5]
    rfl rfl (by decide) rfl rfl rfl rfl (by decide) rfl rfl rfl rfl (by decide) rfl rfl
    (by decide) rfl

/-- Environment for the C6 witness: authentication required, no stored
token. -/
def envC6w : RefreshEnv :=
  { getWorkspaceRoot := Option.some "r"
    fetchCapabilities := Except.ok { auth_required := true }
    readToken := Except.ok Option.none
    hasCargoToml := fun _ => Except.ok true
    listLocalBinaries := fun _ => Except.ok []
    listArtifacts := fun _ => Except.ok [] }

theorem C6_auth_required_without_token_witness :
    (RaceHubViewProvider.refreshArtifacts envC6w initialEngineState).es.state =
        ViewState.loggedOut ∧
    (RaceHubViewProvider.refreshArtifacts envC6w initialEngineState).es.stateDetail =
        ViewStateDetail.notLoggedIn ∧
    (RaceHubViewProvider.refreshArtifacts envC6w initialEngineState).events.any
        Event.isWorkspaceInspection = false ∧
    (RaceHubViewProvider.refreshArtifacts envC6w initialEngineState).events.any
        Event.isListArtifacts = false :=
  C6_auth_required_without_token envC6w initialEngineState rfl rfl

/-- Environment for the C7 witness: no authentication needed and no
workspace root, so the manifest is absent. -/
def envC7w : RefreshEnv :=
  { getWorkspaceRoot := Option.none
    fetchCapabilities := Except.ok { auth_required := false }
    readToken := Except.ok Option.none
    hasCargoToml := fun _ => Except.ok true
    listLocalBinaries := fun _ => Except.ok []
    listArtifacts := fun _ => Except.ok [] }

theorem C7_workspace_gating_witness :
    (RaceHubViewProvider.refreshArtifacts envC7w initialEngineState).es.state =
        ViewState.needsWorkspace ∧
    (RaceHubViewProvider.refreshArtifacts envC7w initialEngineState).es.stateDetail =
        ViewStateDetail.workspaceMissing ∧
    (RaceHubViewProvider.refreshArtifacts envC7w initialEngineState).events.any
        Event.isListArtifacts = false :=
  (C7_workspace_gating envC7w initialEngineState { auth_required := false } Option.none rfl
      (fun h => Bool.noConfusion h)).1 trivial

/-- Environment for the C8 witness. -/
def envC8w : WorkflowEnv :=
  { refreshEnv :=
      { getWorkspaceRoot := Option.none
        fetchCapabilities := Except.ok { auth_required := false }
        readToken := Except.ok Option.none
        hasCargoToml := fun _ => Except.ok true
        listLocalBinaries := fun _ => Except.ok []
        listArtifacts := fun _ => Except.ok [] }
    buildBinary := fun _ _ => Except.ok ()
    elfExists := fun _ => true
    nameInput := fun d => Option.some d
    noteInput := Option.none
    defaultArtifactTarget := "riscv"
    readFileBase64 := fun _ => "QUJD"
    uploadArtifact := fun _ _ => Except.ok 1
    deleteArtifact := fun _ _ => Except.ok ()
    updateArtifactVisibility := fun _ _ _ => Except.ok ()
    quickPick := fun bins => bins.head?
    confirmDelete := true }

theorem C8_amended_legality_is_dynamic_witness :
    legalCombo
        (RaceHubViewProvider.deleteArtifactItem envC8w initialEngineState Option.none).es.state
        (RaceHubViewProvider.deleteArtifactItem envC8w initialEngineState Option.none).es.stateDetail =
      true :=
  (C8_amended_legality_is_dynamic.2.2 envC8w initialEngineState Option.none rfl).2.2.2.2.1

/-- Environment for the C10 witness. -/
def envC10w : WorkflowEnv :=
  { refreshEnv :=
      { getWorkspaceRoot := Option.none
        fetchCapabilities := Except.ok { auth_required := false }
        readToken := Except.ok Option.none
        hasCargoToml := fun _ => Except.ok true
        listLocalBinaries := fun _ => Except.ok []
        listArtifacts := fun _ => Except.ok [] }
    buildBinary := fun _ _ => Except.ok ()
    elfExists := fun _ => true
    nameInput := fun d => Option.some d
    noteInput := Option.none
    defaultArtifactTarget := "riscv"
    readFileBase64 := fun _ => "QUJD"
    uploadArtifact := fun _ _ => Except.ok 1
    deleteArtifact := fun _ _ => Except.ok ()
    updateArtifactVisibility := fun _ _ _ => Except.ok ()
    quickPick := fun bins => bins.head?
    confirmDelete := true }

theorem C10_item_guards_witness :
    (RaceHubViewProvider.deleteArtifactItem envC10w initialEngineState
        (Option.some (Node.message "m")) =
      { es := initialEngineState, events := [], err := Option.none }) ∧
    (RaceHubViewProvider.buildAndUploadBinary envC10w initialEngineState
        (Option.some (Node.message "m")) =
      { es := initialEngineState, events := [], err := Option.none }) :=
  ⟨((C10_item_guards envC10w initialEngineState (Node.message "m")).2.2
      (fun a ha => Node.noConfusion ha)).2.1,
   ((C10_item_guards envC10w initialEngineState (Node.message "m")).2.1
      (fun b hb => Node.noConfusion hb)).1⟩
